import Mathlib

/-!
Verification of the BNR retrieval-and-grounding pipeline.

Shallow embedding of the Python sources under `src/`:
  * `src/config.py`      — constants (chunking, retrieval, fallback message)
  * `src/ingestion.py`   — `DocumentChunk`, `_clean`, `_chunk_words`, `load_pdf`, `load_csv`
  * `src/retriever.py`   — `RetrievedChunk`, `RAGRetriever.retrieve`
  * `src/generator.py`   — `RAGGenerator.generate`
  * `src/audit_logger.py`— `log_query`
  * `src/rag_pipeline.py`— `RAGPipeline.query`

External collaborators (pypdf, pandas, sentence-transformers, FAISS, the
Anthropic client, the filesystem and the wall clock) are modelled at their
interfaces: page texts, serialized CSV rows, per-item similarity scores,
an LLM oracle function, an audit sink function and a latency number are
parameters of the embedded functions.  Machine floats are modelled as `ℚ`.
-/

namespace BNR

/-! ## config.py -/

def CHUNK_SIZE : Nat := 600

def CHUNK_OVERLAP : Nat := 100

def TOP_K : Nat := 5

def FALLBACK_MESSAGE : String :=
  "The answer cannot be determined from the provided documents."

def CSV_SOURCE_NAME : String := "IMF Financial Access Survey – Rwanda"

def DOCUMENT_NAMES : List (String × String) :=
  [("Finscope-Final-Report__10_07_2024-1.pdf", "Rwanda FinScope 2024 Report"),
   ("Law_governing_the_Payment_system_2021.pdf", "Payment System Law No. 061/2021 (NBR)"),
   ("The-State-of-the-Industry-Report-2025_English.pdf", "GSMA State of the Industry Report 2025")]

/-! ## ingestion.py — data model -/

/-- `DocumentChunk` (ingestion.py).  `metadata` is the auxiliary dict
(string keys and values in the code). -/
structure DocumentChunk where
  text        : String
  source_name : String
  filename    : String
  page        : Nat          -- 1-based for PDF pages; 0 for CSV
  chunk_index : Nat
  doc_type    : String       -- "pdf" or "csv"
  metadata    : List (String × String) := []
deriving DecidableEq

/-- The key string hashed by `DocumentChunk.chunk_id`:
`f"{self.filename}|{self.page}|{self.chunk_index}"`. -/
def chunkKey (c : DocumentChunk) : String :=
  c.filename ++ "|" ++ toString c.page ++ "|" ++ toString c.chunk_index

/-- `DocumentChunk.chunk_id`: the md5 hex digest of `chunkKey`.  The hash
function itself (`hashlib.md5`) is an external collaborator, so it is a
parameter; the property of interest is that the id depends only on the
`(filename, page, chunk_index)` triple. -/
def chunk_id (md5hex : String → String) (c : DocumentChunk) : String :=
  md5hex (chunkKey c)

/-! ## ingestion.py — text utilities -/

/-- First substitution of `_clean`: `re.sub(r"-\s*\n\s*", "", text)`.
A greedy match at a hyphen succeeds exactly when the maximal whitespace run
following it contains a newline, and then deletes the hyphen together with
the whole run.  Python's `\s` is modelled by `Char.isWhitespace`.  The
`fuel` argument only makes the recursion structural: every step consumes at
least one character, so `fuel = l.length` never runs out. -/
def dehyphenateAux : Nat → List Char → List Char
  | 0, _ => []
  | _ + 1, [] => []
  | fuel + 1, '-' :: rest =>
    if (rest.takeWhile Char.isWhitespace).contains '\n' then
      dehyphenateAux fuel (rest.dropWhile Char.isWhitespace)
    else
      '-' :: dehyphenateAux fuel rest
  | fuel + 1, c :: rest => c :: dehyphenateAux fuel rest

def dehyphenate (l : List Char) : List Char :=
  dehyphenateAux l.length l

/-- Second substitution of `_clean`: `re.sub(r"\s+", " ", text)` — each
maximal whitespace run becomes a single space.  `prevWs` records whether the
previous character belonged to a whitespace run already replaced. -/
def collapseWS (prevWs : Bool) : List Char → List Char
  | [] => []
  | c :: rest =>
    if c.isWhitespace then
      (if prevWs then [] else [' ']) ++ collapseWS true rest
    else
      c :: collapseWS false rest

/-- Python `str.strip()` with no argument: remove leading and trailing
whitespace. -/
def pyStrip (l : List Char) : List Char :=
  ((l.dropWhile Char.isWhitespace).reverse.dropWhile Char.isWhitespace).reverse

/-- `_clean` (ingestion.py): de-hyphenate line-wrapped words, collapse
whitespace, strip. -/
def clean (text : String) : String :=
  String.mk (pyStrip (collapseWS false (dehyphenate text.toList)))

/-- Python `str.split()` with no argument: maximal non-whitespace runs, in
order; empty fragments never occur.  `cur` holds the characters of the
current word in reverse. -/
def pySplitAux (cur : List Char) : List Char → List String
  | [] => if cur = [] then [] else [String.mk cur.reverse]
  | c :: rest =>
    if c.isWhitespace then
      if cur = [] then pySplitAux [] rest
      else String.mk cur.reverse :: pySplitAux [] rest
    else
      pySplitAux (c :: cur) rest

def pySplit (s : String) : List String :=
  pySplitAux [] s.toList

/-- Python `" ".join(ws)`. -/
def joinWords (ws : List String) : String :=
  String.intercalate " " ws

/-- Loop body of `_chunk_words` (ingestion.py).  `fuel` bounds the number of
iterations; with stride `size - overlap ≥ 1` the Python loop performs at most
`words.length` iterations, so `fuel = words.length + 1` never runs out
(with stride 0 the Python loop would not terminate at all). -/
def chunkWordsAux (words : List String) (size overlap : Nat) : Nat → Nat → List String
  | 0, _ => []
  | fuel + 1, start =>
    if start < words.length then
      let e := min (start + size) words.length
      let chunk := joinWords ((words.drop start).take size)
      let rest :=
        if e = words.length then []
        else chunkWordsAux words size overlap fuel (start + (size - overlap))
      if 80 < chunk.length then chunk :: rest else rest
    else []

/-- `_chunk_words` (ingestion.py): word-based sliding windows of `size`
words advancing by `size - overlap`, keeping only windows whose joined
length exceeds 80 characters. -/
def chunk_words (text : String) (size : Nat := CHUNK_SIZE) (overlap : Nat := CHUNK_OVERLAP) :
    List String :=
  let words := pySplit text
  chunkWordsAux words size overlap (words.length + 1) 0

/-! ## ingestion.py — loaders -/

/-- `load_pdf` (ingestion.py).  `pages` is the list of raw page texts
extracted by pypdf (the pypdf reader is the external collaborator; a page
whose extraction fails is modelled by the empty string, which the code
skips).  Pages are enumerated from 1. -/
def load_pdf (filename : String) (pages : List String) : List DocumentChunk :=
  let source_name := ((DOCUMENT_NAMES.lookup filename).getD filename)
  (pages.enum.map (fun pg =>
    let cleaned := clean pg.2
    if cleaned = "" then []
    else
      (chunk_words cleaned).enum.map (fun ct =>
        { text := ct.2, source_name := source_name, filename := filename,
          page := pg.1 + 1, chunk_index := ct.1, doc_type := "pdf" }))).flatten

/-- One CSV row as seen by `load_csv` after the pandas layer: the indicator
string, the identifier-column pairs whose values are non-null and non-blank,
and the year-column pairs whose values are non-null and non-blank
(pandas itself is the external collaborator). -/
structure CsvRow where
  indicator : String
  idPairs   : List (String × String)
  yearPairs : List (String × String)

/-- The serialized text `"\n".join(parts)` built by `load_csv` for one row. -/
def rowText (r : CsvRow) : String :=
  let parts :=
    ("Indicator: " ++ r.indicator) ::
      (r.idPairs.map (fun p => "  " ++ p.1 ++ ": " ++ p.2) ++
        (if r.yearPairs.isEmpty then []
         else ["  Annual values: " ++
                String.intercalate ", " (r.yearPairs.map (fun p => p.1 ++ "=" ++ p.2))]))
  String.intercalate "\n" parts

/-- `load_csv` (ingestion.py): one chunk per row, kept only when the
serialized text is longer than 40 characters; `page = 0` sentinel,
`chunk_index` is the row position. -/
def load_csv (filename : String) (rows : List CsvRow) : List DocumentChunk :=
  rows.enum.filterMap (fun p =>
    let text := rowText p.2
    if 40 < text.length then
      some { text := text, source_name := CSV_SOURCE_NAME, filename := filename,
             page := 0, chunk_index := p.1, doc_type := "csv",
             metadata := [("indicator", p.2.indicator)] }
    else none)

/-! ## retriever.py -/

/-- `RetrievedChunk` (retriever.py).  `similarity` (a Python float) is
modelled as `ℚ`. -/
structure RetrievedChunk where
  text        : String
  source_name : String
  filename    : String
  page        : Nat
  doc_type    : String
  similarity  : ℚ
deriving DecidableEq

/-- One entry of `RAGRetriever._metadata` (built by `index_documents`). -/
structure ChunkMeta where
  source_name : String
  filename    : String
  page        : Nat
  doc_type    : String
deriving DecidableEq, Inhabited

/-- Python `round()` to the nearest integer with round-half-to-even
tie-breaking, on floats modelled as `ℚ`.  Phrased on the numerator and
denominator (`x - ⌊x⌋ = r / den` with `0 ≤ r < den`) so that it evaluates
by kernel reduction. -/
def pyRound (x : ℚ) : ℤ :=
  let f := Rat.floor x
  let r := x.num - f * (x.den : ℤ)
  if 2 * r < (x.den : ℤ) then f
  else if (x.den : ℤ) < 2 * r then f + 1
  else if f % 2 = 0 then f else f + 1

/-- `x * 10 ^ e` for `x : ℚ`, phrased via `Rat.divInt` so that it evaluates
by kernel reduction. -/
def scalePow10 (e : Nat) (x : ℚ) : ℚ := Rat.divInt (x.num * (10 ^ e : ℕ)) (x.den : ℤ)

/-- Python `round(x, 4)` applied to the similarity score. -/
def round4 (x : ℚ) : ℚ := Rat.divInt (pyRound (scalePow10 4 x)) (10 ^ 4 : ℕ)

/-- `faiss.IndexFlatIP.search` (external collaborator) on the stored
vectors for one query: the stored items, presented through their inner
product `scores` with the normalized query embedding, ranked by descending
score, truncated to `n`.  The ranking is stable, and with `n ≤ scores.length`
FAISS never emits the `-1` padding index, so the `idx < 0` guard of
`retrieve` is unreachable and indices are `Nat` here. -/
def search (scores : List ℚ) (n : Nat) : List (Nat × ℚ) :=
  (scores.enum.insertionSort (fun a b => b.2 < a.2)).take n

/-- `RAGRetriever.retrieve` (retriever.py).  The embedding model is the
external collaborator, so the query is represented by `scores`: the cosine
similarity of each stored (normalized) vector with the (normalized) query
embedding; `scores.length` is `ntotal`, and `_texts`/`_metadata` have that
same length whenever the index was built by `index_documents` (the `getD`
defaults mirror `meta.get(..., default)` in the code). -/
def retrieve (texts : List String) (metadata : List ChunkMeta) (scores : List ℚ)
    (k : Nat := TOP_K) : List RetrievedChunk :=
  if scores.length = 0 then []
  else
    let n := min k scores.length
    (search scores n).map (fun p =>
      let meta := metadata.getD p.1 default
      { text := texts.getD p.1 "",
        source_name := meta.source_name,
        filename := meta.filename,
        page := meta.page,
        doc_type := meta.doc_type,
        similarity := round4 p.2 })

/-! ## generator.py -/

/-- The typed failure of the language-model service
(`anthropic.APIError` and its refinements). -/
inductive APIError where
  | timeout
  | authentication
  | rateLimit
  | other (msg : String)
deriving DecidableEq

/-- The successful response of `client.messages.create`: the text of the
first content block and the usage counts. -/
structure LLMResponse where
  text          : String
  input_tokens  : Nat
  output_tokens : Nat
deriving DecidableEq

/-- The language-model service (external collaborator): takes the system
prompt and the user message, returns a response or a typed error. -/
def LLMService : Type := String → String → Except APIError LLMResponse

/-- One deduplicated entry of the `sources` list built by `generate`. -/
structure SourceEntry where
  source_name : String
  page        : Nat
  doc_type    : String
  similarity  : ℚ
deriving DecidableEq

/-- Return value of `RAGGenerator.generate`. -/
structure GenResult where
  answer        : String
  sources       : List SourceEntry
  context_used  : List RetrievedChunk
  model         : String
  input_tokens  : Nat
  output_tokens : Nat
deriving DecidableEq

/-- Python `f"{x:.2f}"` on a similarity score modelled as `ℚ`
(binary-float tie behavior not observable at the inputs used here). -/
def format2 (x : ℚ) : String :=
  let n : ℤ := pyRound (scalePow10 2 x)
  let sign := if n < 0 then "-" else ""
  let m := n.natAbs
  let frac := m % 100
  sign ++ toString (m / 100) ++ "." ++ (if frac < 10 then "0" else "") ++ toString frac

/-- `_SYSTEM_PROMPT` (generator.py), with `config.FALLBACK_MESSAGE`
interpolated. -/
def SYSTEM_PROMPT : String :=
  "You are a precise, document-grounded research assistant for the " ++
  "National Bank of Rwanda (BNR).\n\n" ++
  "STRICT RULES:\n" ++
  "1. Answer ONLY using information explicitly present in the document excerpts " ++
  "provided below the user question.\n" ++
  "2. If the provided excerpts do not contain sufficient information to answer " ++
  "the question, you MUST respond with EXACTLY this sentence and nothing else:\n" ++
  "   \"" ++ FALLBACK_MESSAGE ++ "\"\n" ++
  "3. Do NOT add external knowledge, personal opinions, or inferences that go " ++
  "beyond what the documents state.\n" ++
  "4. Be concise, factual, and professional.\n" ++
  "5. After your answer, include a \"Sources:\" section listing every excerpt you " ++
  "drew upon, in the format:\n" ++
  "   - <Document Name>, Page <N>   (use \"—\" for the page if the source is a dataset)\n\n" ++
  "RESPONSE FORMAT:\n<your answer>\n\nSources:\n- <Document Name>, Page <N>\n- …\n"

/-- The per-excerpt header built by `generate`. -/
def excerptHeader (i : Nat) (c : RetrievedChunk) : String :=
  if c.doc_type = "csv" then
    "[Excerpt " ++ toString i ++ " | Source: " ++ c.source_name ++
      " | Relevance: " ++ format2 c.similarity ++ "]"
  else
    "[Excerpt " ++ toString i ++ " | Source: " ++ c.source_name ++
      ", Page " ++ toString c.page ++ " | Relevance: " ++ format2 c.similarity ++ "]"

/-- The `"—" * 60` delimiter line between excerpts. -/
def excerptDelim : String :=
  String.mk (List.replicate 60 '—')

/-- The user message built by `generate` from the question and the chunks. -/
def userMessage (question : String) (chunks : List RetrievedChunk) : String :=
  let context_parts :=
    (chunks.enum.map (fun p => excerptHeader (p.1 + 1) p.2 ++ "\n" ++ p.2.text))
  let context := "\n\n" ++ String.intercalate ("\n\n" ++ excerptDelim ++ "\n\n") context_parts
  "Question: " ++ question ++ "\n\nDocument excerpts:" ++ context ++
    "\n\nPlease answer the question based strictly on the excerpts above."

/-- The dedup-by-`(source_name, page)` loop of `generate`; `seen` is the
set of keys already emitted. -/
def dedupSourcesAux (seen : List (String × Nat)) : List RetrievedChunk → List SourceEntry
  | [] => []
  | c :: cs =>
    if (c.source_name, c.page) ∈ seen then
      dedupSourcesAux seen cs
    else
      { source_name := c.source_name, page := c.page,
        doc_type := c.doc_type, similarity := c.similarity } ::
        dedupSourcesAux ((c.source_name, c.page) :: seen) cs

/-- The deduplicated source list of `generate` (first-encounter order). -/
def dedupSources (chunks : List RetrievedChunk) : List SourceEntry :=
  dedupSourcesAux [] chunks

/-- The result `generate` returns on an empty chunk list. -/
def fallbackResult (model : String) : GenResult :=
  { answer := FALLBACK_MESSAGE, sources := [], context_used := [],
    model := model, input_tokens := 0, output_tokens := 0 }

/-- `RAGGenerator.generate` (generator.py).  The Anthropic client is the
external collaborator `llm`; `anthropic.APIError` is logged and re-raised,
modelled by returning `Except.error`. -/
def generate (model : String) (llm : LLMService) (question : String)
    (chunks : List RetrievedChunk) : Except APIError GenResult :=
  if chunks = [] then
    .ok (fallbackResult model)
  else
    match llm SYSTEM_PROMPT (userMessage question chunks) with
    | .error exc => .error exc
    | .ok response =>
      .ok { answer := response.text,
            sources := dedupSources chunks,
            context_used := chunks,
            model := model,
            input_tokens := response.input_tokens,
            output_tokens := response.output_tokens }

/-! ## audit_logger.py -/

/-- Python `round(x, 1)` on the latency (float modelled as `ℚ`). -/
def round1 (x : ℚ) : ℚ := Rat.divInt (pyRound (scalePow10 1 x)) (10 ^ 1 : ℕ)

/-- Python string slice `s[:n]` (by characters). -/
def pySlice (s : String) (n : Nat) : String :=
  String.mk (s.toList.take n)

/-- Python `s.startswith(pre)`. -/
def pyStartswith (s pre : String) : Bool :=
  pre.toList.isPrefixOf s.toList

/-- The pipeline result dict returned by `RAGPipeline.query` (the fields
`log_query` reads). -/
structure PipelineResult where
  question             : String
  answer               : String
  sources              : List SourceEntry
  context_used         : List RetrievedChunk
  num_chunks_retrieved : Nat
  model                : String
  input_tokens         : Nat
  output_tokens        : Nat
  latency_ms           : ℚ
deriving DecidableEq

/-- One audit record (audit_logger.py).  The `timestamp` field comes from
the system clock and is not modelled. -/
structure AuditRecord where
  question          : String
  answer_preview    : String
  is_fallback       : Bool
  sources_retrieved : List (String × Nat × ℚ)   -- (source, page, similarity)
  num_chunks        : Nat
  model             : String
  input_tokens      : Nat
  output_tokens     : Nat
  latency_ms        : ℚ
deriving DecidableEq

/-- The record construction inside `log_query`.  Note the code flags
`is_fallback` by prefix-matching the literal
`"The answer cannot be determined"`, not the full fallback sentence. -/
def buildRecord (question : String) (result : PipelineResult) (latency_ms : ℚ) :
    AuditRecord :=
  { question := question,
    answer_preview := pySlice result.answer 300,
    is_fallback := pyStartswith result.answer "The answer cannot be determined",
    sources_retrieved := result.sources.map (fun c => (c.source_name, c.page, c.similarity)),
    num_chunks := result.num_chunks_retrieved,
    model := result.model,
    input_tokens := result.input_tokens,
    output_tokens := result.output_tokens,
    latency_ms := round1 latency_ms }

/-- Outcome of one `log_query` call: the record was appended, or the
`OSError` was caught and degraded to a `logger.warning`.  Either way the
function returns normally (it never raises to its caller). -/
inductive AuditOutcome where
  | written (record : AuditRecord)
  | warned (record : AuditRecord) (err : String)
deriving DecidableEq

/-- The record a finished `log_query` call attempted to append. -/
def AuditOutcome.record : AuditOutcome → AuditRecord
  | .written r => r
  | .warned r _ => r

/-- The audit sink (external collaborator): appending one line to
`logs/audit.jsonl`, which may fail with an `OSError` message. -/
def AuditSink : Type := AuditRecord → Except String Unit

/-- `log_query` (audit_logger.py): build the record, try to append it,
catch `OSError` into a warning. -/
def log_query (sink : AuditSink) (question : String) (result : PipelineResult)
    (latency_ms : ℚ) : AuditOutcome :=
  let record := buildRecord question result latency_ms
  match sink record with
  | .ok _ => .written record
  | .error exc => .warned record exc

/-! ## rag_pipeline.py -/

/-- `RAGPipeline.query` (rag_pipeline.py): retrieve, generate, attach
counts and latency, audit, return.  The wall clock is external, so the
measured latency is the parameter `latency`; the retriever state is the
`(texts, metadata, scores)` triple of `retrieve`.  The returned pair also
carries the `AuditOutcome` so that the audit write performed before the
return is observable. -/
def query (texts : List String) (metadata : List ChunkMeta) (scores : List ℚ)
    (k : Nat) (model : String) (llm : LLMService) (sink : AuditSink)
    (question : String) (latency : ℚ) :
    Except APIError (PipelineResult × AuditOutcome) :=
  let chunks := retrieve texts metadata scores k
  match generate model llm question chunks with
  | .error exc => .error exc
  | .ok g =>
    let result : PipelineResult :=
      { question := question,
        answer := g.answer,
        sources := g.sources,
        context_used := g.context_used,
        num_chunks_retrieved := chunks.length,
        model := g.model,
        input_tokens := g.input_tokens,
        output_tokens := g.output_tokens,
        latency_ms := round1 latency }
    .ok (result, log_query sink question result latency)

/-! ## Concrete fixtures used by the verification theorems -/

/-- Two chunks with different text and source name but the same
`(filename, page, chunk_index)` triple, for the C7 witness. -/
def c7ChunkA : DocumentChunk :=
  { text := "text A", source_name := "Doc A", filename := "f.pdf",
    page := 3, chunk_index := 2, doc_type := "pdf" }

def c7ChunkB : DocumentChunk :=
  { text := "text B", source_name := "Doc B", filename := "f.pdf",
    page := 3, chunk_index := 2, doc_type := "csv" }

/-- The pipeline-result fixture refuting C9: an answer that starts with the
31-character literal the code matches but not with the full fallback
sentence. -/
def c9Result : PipelineResult :=
  { question := "q", answer := "The answer cannot be determined yet.",
    sources := [], context_used := [], num_chunks_retrieved := 0,
    model := "m", input_tokens := 1, output_tokens := 2, latency_ms := 5 }

/-- The `(source_name, page)` key of a retrieved chunk (the tuple the
dedup loop of `generate` puts into `seen`). -/
def retrievedKey (c : RetrievedChunk) : String × Nat := (c.source_name, c.page)

/-- The `(source_name, page)` key of an emitted source entry. -/
def entryKey (s : SourceEntry) : String × Nat := (s.source_name, s.page)

/-- Concrete chunks for the C4 witness: two of them share a
`(source_name, page)` key. -/
def c4Chunks : List RetrievedChunk :=
  [{ text := "t1", source_name := "Doc A", filename := "a.pdf", page := 2,
     doc_type := "pdf", similarity := Rat.divInt 3 4 },
   { text := "t2", source_name := "Doc B", filename := "b.pdf", page := 5,
     doc_type := "pdf", similarity := Rat.divInt 7 10 },
   { text := "t3", source_name := "Doc A", filename := "a.pdf", page := 2,
     doc_type := "pdf", similarity := Rat.divInt 3 5 }]

def c4Gen : GenResult :=
  { answer := "answer", sources := dedupSources c4Chunks, context_used := c4Chunks,
    model := "m", input_tokens := 11, output_tokens := 3 }

def c8SinkFail : AuditSink := fun _ => .error "disk full"

def c8SinkOk : AuditSink := fun _ => .ok ()

/-- The result `query` returns on an empty index (fallback path), used by
the C8 witness. -/
def c8Result : PipelineResult :=
  { question := "q", answer := FALLBACK_MESSAGE, sources := [], context_used := [],
    num_chunks_retrieved := 0, model := "m", input_tokens := 0, output_tokens := 0,
    latency_ms := round1 7 }

def c1Texts : List String := ["Mobile money statistics for other regions."]

def c1Meta : ChunkMeta :=
  { source_name := "GSMA State of the Industry Report 2025",
    filename := "The-State-of-the-Industry-Report-2025_English.pdf",
    page := 57, doc_type := "pdf" }

def c1Scores : List ℚ := [Rat.divInt 51 100]

def c1llm : LLMService :=
  fun _ _ => .ok { text := "A confident answer synthesized from the low-relevance excerpt.",
                   input_tokens := 42, output_tokens := 9 }

def c1Sink : AuditSink := fun _ => .ok ()

/-- An 81-character single word: the smallest shape that survives the
viability threshold, for the C6/C10 witnesses. -/
def c6Text : String := String.mk (List.replicate 81 'a')

/-- A concrete CSV row for the C10 witness. -/
def c10Row : CsvRow :=
  { indicator := "Mobile money accounts per 1000 adults",
    idPairs := [], yearPairs := [("2023", "912.4")] }

/-- The chunk `load_csv` emits for `c10Row`. -/
def c10Chunk : DocumentChunk :=
  { text := rowText c10Row, source_name := CSV_SOURCE_NAME, filename := "fas.csv",
    page := 0, chunk_index := 0, doc_type := "csv",
    metadata := [("indicator", c10Row.indicator)] }

/-- The chunk `load_pdf` emits for the one-page corpus `[c6Text]`. -/
def c10PdfChunk : DocumentChunk :=
  { text := c6Text, source_name := "f.pdf", filename := "f.pdf",
    page := 1, chunk_index := 0, doc_type := "pdf" }

/-! ## Theorems -/

/-- C3: `generate(question, [])` makes no call to the model service (its
result does not depend on the LLM oracle at all) and returns exactly the
fixed fallback sentence, an empty sources list, an empty context list and
zero input and output token counts; as a pure function of its arguments,
repeated calls yield the identical result. -/
theorem c3_no_evidence_fast_path (model question : String) (llm llm' : LLMService) :
    generate model llm question [] = .ok (fallbackResult model) ∧
    (fallbackResult model).answer = FALLBACK_MESSAGE ∧
    (fallbackResult model).sources = [] ∧
    (fallbackResult model).context_used = [] ∧
    (fallbackResult model).input_tokens = 0 ∧
    (fallbackResult model).output_tokens = 0 ∧
    generate model llm question [] = generate model llm' question [] :=
  ⟨rfl, rfl, rfl, rfl, rfl, rfl, rfl⟩

/-- C7: the chunk identifier is a function of the
`(filename, page, chunk_index)` triple only — whatever hash the external
library computes, two chunks agreeing on that triple get the same id. -/
theorem c7_chunk_id_stability (md5hex : String → String) (c₁ c₂ : DocumentChunk)
    (hf : c₁.filename = c₂.filename) (hp : c₁.page = c₂.page)
    (hi : c₁.chunk_index = c₂.chunk_index) :
    chunk_id md5hex c₁ = chunk_id md5hex c₂ := by
  unfold chunk_id chunkKey
  rw [hf, hp, hi]

/-- Witness for C7: the two fixture chunks share their id. -/
theorem c7_chunk_id_stability_witness :
    chunk_id (fun s => s) c7ChunkA = chunk_id (fun s => s) c7ChunkB :=
  c7_chunk_id_stability (fun s => s) c7ChunkA c7ChunkB rfl rfl rfl

/-- C2: if the model-service call fails with a typed `APIError`, `generate`
on a non-empty chunk list propagates exactly that error (never a fallback
result), and `query` propagates it to its caller whenever retrieval is
non-empty. -/
theorem c2_transport_error_propagation (model question : String)
    (chunks : List RetrievedChunk) (llm : LLMService) (e : APIError)
    (hne : chunks ≠ []) (hfail : ∀ s u, llm s u = .error e) :
    generate model llm question chunks = .error e ∧
    (∀ g : GenResult, generate model llm question chunks ≠ .ok g) ∧
    ∀ (texts : List String) (metadata : List ChunkMeta) (scores : List ℚ) (k : Nat)
      (sink : AuditSink) (latency : ℚ),
      retrieve texts metadata scores k ≠ [] →
      query texts metadata scores k model llm sink question latency = .error e := by
  have hgen : ∀ cs : List RetrievedChunk, cs ≠ [] →
      generate model llm question cs = .error e := by
    intro cs hcs
    unfold generate
    rw [if_neg hcs, hfail]
  refine ⟨hgen chunks hne, ?_, ?_⟩
  · intro g h
    rw [hgen chunks hne] at h
    exact Except.noConfusion h
  · intro texts metadata scores k sink latency hne'
    unfold query
    simp only [hgen _ hne']

/-- Witness for C2 at a concrete chunk and a service that times out. -/
theorem c2_transport_error_propagation_witness :
    ([{ text := "t", source_name := "S", filename := "f.pdf", page := 1,
        doc_type := "pdf", similarity := Rat.divInt 3 4 }] : List RetrievedChunk) ≠ [] ∧
    generate "m" (fun _ _ => .error .timeout) "q"
      [{ text := "t", source_name := "S", filename := "f.pdf", page := 1,
         doc_type := "pdf", similarity := Rat.divInt 3 4 }] = .error .timeout :=
  ⟨by simp,
   (c2_transport_error_propagation "m" "q" _ (fun _ _ => .error .timeout) .timeout
     (by simp) (fun _ _ => rfl)).1⟩

/-- C9 counterexample: `log_query` flags `is_fallback` for an answer that
does not start with the full fallback sentence, because the code prefix-
matches the shorter literal `"The answer cannot be determined"`; so
"`is_fallback` iff the answer starts with the exact fallback sentence" is
false on the code. -/
theorem c9_is_fallback_counterexample :
    (buildRecord "q" c9Result 5).is_fallback = true ∧
    pyStartswith c9Result.answer FALLBACK_MESSAGE = false := by
  exact ⟨by decide, by decide⟩

/-- C9 amended: `is_fallback` is an exact-prefix match of the answer
against the fixed literal `"The answer cannot be determined"` — a proper
prefix of the fallback sentence.  Every answer equal to the fallback
sentence is flagged (that literal is a prefix of the sentence), but an
answer can be flagged without starting with the full sentence. -/
theorem c9_is_fallback_amended (question : String) (result : PipelineResult) (latency : ℚ) :
    (buildRecord question result latency).is_fallback =
      pyStartswith result.answer "The answer cannot be determined" ∧
    pyStartswith FALLBACK_MESSAGE "The answer cannot be determined" = true ∧
    (result.answer = FALLBACK_MESSAGE →
      (buildRecord question result latency).is_fallback = true) := by
  refine ⟨rfl, by decide, ?_⟩
  intro h
  show pyStartswith result.answer "The answer cannot be determined" = true
  rw [h]
  decide

/-- Witness for C9 (amended): a result whose answer is exactly the fallback
sentence is flagged as fallback. -/
theorem c9_is_fallback_amended_witness :
    (buildRecord "q" ({ c9Result with answer := FALLBACK_MESSAGE }) 5).is_fallback = true :=
  (c9_is_fallback_amended "q" ({ c9Result with answer := FALLBACK_MESSAGE }) 5).2.2 rfl

/-- C5: `retrieve` returns exactly `min k (item count)` results — all of the
items when `k` exceeds the index size, with no padding — and the empty list
(never an error) on an empty index. -/
theorem c5_topk_clamping (texts : List String) (metadata : List ChunkMeta)
    (scores : List ℚ) (k : Nat) :
    (retrieve texts metadata scores k).length = min k scores.length ∧
    retrieve texts metadata [] k = [] := by
  constructor
  · unfold retrieve
    by_cases h : scores.length = 0
    · rw [if_pos h, h]
      simp
    · rw [if_neg h]
      simp only [List.length_map, search, List.length_take, List.length_insertionSort,
        List.enum_length]
      omega
  · rfl

theorem dedupSourcesAux_sublist (cs : List RetrievedChunk) :
    ∀ seen, ((dedupSourcesAux seen cs).map entryKey).Sublist (cs.map retrievedKey) := by
  induction cs with
  | nil => intro seen; simp [dedupSourcesAux]
  | cons c cs ih =>
    intro seen
    by_cases h : (c.source_name, c.page) ∈ seen
    · simp only [dedupSourcesAux, if_pos h, List.map_cons]
      exact (ih seen).cons _
    · simp only [dedupSourcesAux, if_neg h, List.map_cons]
      exact (ih _).cons₂ _

theorem dedupSourcesAux_nodup (cs : List RetrievedChunk) :
    ∀ seen, (∀ x ∈ (dedupSourcesAux seen cs).map entryKey, x ∉ seen) ∧
      ((dedupSourcesAux seen cs).map entryKey).Nodup := by
  induction cs with
  | nil => intro seen; simp [dedupSourcesAux]
  | cons c cs ih =>
    intro seen
    by_cases h : (c.source_name, c.page) ∈ seen
    · simpa only [dedupSourcesAux, if_pos h] using ih seen
    · simp only [dedupSourcesAux, if_neg h, List.map_cons]
      obtain ⟨ihmem, ihnd⟩ := ih ((c.source_name, c.page) :: seen)
      constructor
      · intro x hx
        rcases List.mem_cons.mp hx with hx | hx
        · subst hx; exact h
        · intro hxs
          exact (ihmem x hx) (List.mem_cons_of_mem _ hxs)
      · refine List.nodup_cons.mpr ⟨?_, ihnd⟩
        intro hmem
        exact (ihmem _ hmem) (List.mem_cons_self _ _)

theorem dedupSourcesAux_complete (cs : List RetrievedChunk) :
    ∀ seen c, c ∈ cs →
      retrievedKey c ∈ seen ∨ retrievedKey c ∈ (dedupSourcesAux seen cs).map entryKey := by
  induction cs with
  | nil => intro seen c hc; cases hc
  | cons c' cs ih =>
    intro seen c hc
    by_cases h : (c'.source_name, c'.page) ∈ seen
    · simp only [dedupSourcesAux, if_pos h]
      rcases List.mem_cons.mp hc with rfl | hc
      · exact .inl h
      · exact ih seen c hc
    · simp only [dedupSourcesAux, if_neg h, List.map_cons]
      rcases List.mem_cons.mp hc with rfl | hc
      · exact .inr (List.mem_cons_self _ _)
      · rcases ih ((c'.source_name, c'.page) :: seen) c hc with hmem | hmem
        · rcases List.mem_cons.mp hmem with heq | hmem'
          · exact .inr (by rw [heq]; exact List.mem_cons_self _ _)
          · exact .inl hmem'
        · exact .inr (List.mem_cons_of_mem _ hmem)

theorem dedupSourcesAux_sound (cs : List RetrievedChunk) :
    ∀ seen s, s ∈ dedupSourcesAux seen cs →
      ∃ c ∈ cs, s.source_name = c.source_name ∧ s.page = c.page ∧
        s.doc_type = c.doc_type ∧ s.similarity = c.similarity := by
  induction cs with
  | nil => intro seen s hs; simp [dedupSourcesAux] at hs
  | cons c cs ih =>
    intro seen s hs
    by_cases h : (c.source_name, c.page) ∈ seen
    · simp only [dedupSourcesAux, if_pos h] at hs
      obtain ⟨c', hc', h1⟩ := ih seen s hs
      exact ⟨c', List.mem_cons_of_mem _ hc', h1⟩
    · simp only [dedupSourcesAux, if_neg h] at hs
      rcases List.mem_cons.mp hs with rfl | hs
      · exact ⟨c, List.mem_cons_self _ _, rfl, rfl, rfl, rfl⟩
      · obtain ⟨c', hc', h1⟩ := ih _ s hs
        exact ⟨c', List.mem_cons_of_mem _ hc', h1⟩

/-- C4: on a successful generation from a non-empty chunk list, the
returned sources are exactly the input chunks deduplicated by
`(source_name, page)`: every entry is copied from some input chunk (no
fabrication), the keys are pairwise distinct, they form a subsequence of
the input key sequence (first-encounter order), and every input chunk's key
occurs. -/
theorem c4_citation_soundness (model question : String) (llm : LLMService)
    (chunks : List RetrievedChunk) (g : GenResult)
    (hne : chunks ≠ []) (hok : generate model llm question chunks = .ok g) :
    g.sources = dedupSources chunks ∧
    (∀ s ∈ g.sources, ∃ c ∈ chunks, s.source_name = c.source_name ∧ s.page = c.page ∧
      s.doc_type = c.doc_type ∧ s.similarity = c.similarity) ∧
    (g.sources.map entryKey).Nodup ∧
    (g.sources.map entryKey).Sublist (chunks.map retrievedKey) ∧
    ∀ c ∈ chunks, retrievedKey c ∈ g.sources.map entryKey := by
  have hs : g.sources = dedupSources chunks := by
    unfold generate at hok
    rw [if_neg hne] at hok
    cases hllm : llm SYSTEM_PROMPT (userMessage question chunks) with
    | error e => rw [hllm] at hok; cases hok
    | ok r =>
      rw [hllm] at hok
      simp only [Except.ok.injEq] at hok
      rw [← hok]
  refine ⟨hs, ?_, ?_, ?_, ?_⟩
  · intro s hsrc
    rw [hs] at hsrc
    exact dedupSourcesAux_sound chunks [] s hsrc
  · rw [hs]
    exact (dedupSourcesAux_nodup chunks []).2
  · rw [hs]
    exact dedupSourcesAux_sublist chunks []
  · intro c hc
    rw [hs]
    rcases dedupSourcesAux_complete chunks [] c hc with hmem | hmem
    · cases hmem
    · exact hmem

/-- Witness for C4 at the concrete chunk list. -/
theorem c4_citation_soundness_witness :
    c4Gen.sources = dedupSources c4Chunks ∧ (c4Gen.sources.map entryKey).Nodup := by
  have h := c4_citation_soundness "m" "q"
    (fun _ _ => .ok { text := "answer", input_tokens := 11, output_tokens := 3 })
    c4Chunks c4Gen (by simp [c4Chunks]) rfl
  exact ⟨h.1, h.2.2.1⟩

/-- The record a `log_query` call attempts to append is always the one
built from its arguments, whether the sink write succeeds or fails. -/
theorem log_query_record (sink : AuditSink) (q : String) (res : PipelineResult) (lat : ℚ) :
    (log_query sink q res lat).record = buildRecord q res lat := by
  simp only [log_query]
  cases h : sink (buildRecord q res lat) <;> rfl

/-- C8: the user-visible result of `query` does not depend on the audit
sink — a failing sink never changes the returned result and never fails the
query — and the audit outcome returned alongside the result carries exactly
the record built from that result (the audit write happens, on the returned
result, before `query` returns); a failing sink write degrades to a
warning. -/
theorem c8_audit_non_interference (texts : List String) (metadata : List ChunkMeta)
    (scores : List ℚ) (k : Nat) (model : String) (llm : LLMService)
    (question : String) (latency : ℚ) (sink sink' : AuditSink) :
    ((query texts metadata scores k model llm sink question latency).map Prod.fst =
      (query texts metadata scores k model llm sink' question latency).map Prod.fst) ∧
    (∀ r a, query texts metadata scores k model llm sink question latency = .ok (r, a) →
      a.record = buildRecord question r latency ∧
      query texts metadata scores k model llm sink' question latency =
        .ok (r, log_query sink' question r latency)) ∧
    (∀ (err : String) (res : PipelineResult),
      log_query (fun _ => .error err) question res latency =
        .warned (buildRecord question res latency) err) := by
  refine ⟨?_, ?_, fun err res => rfl⟩
  · simp only [query]
    cases hg : generate model llm question (retrieve texts metadata scores k) with
    | error e => rfl
    | ok g => rfl
  · simp only [query]
    cases hg : generate model llm question (retrieve texts metadata scores k) with
    | error e =>
      intro r a heq
      cases heq
    | ok g =>
      intro r a heq
      simp only [Except.ok.injEq, Prod.mk.injEq] at heq
      obtain ⟨hr, ha⟩ := heq
      subst hr
      rw [← ha, log_query_record]
      exact ⟨rfl, rfl⟩

/-- Witness for C8: with a failing sink, the audit outcome attached to the
returned result is the record of that very result (and the query still
succeeded). -/
theorem c8_audit_non_interference_witness :
    (log_query c8SinkFail "q" c8Result 7).record = buildRecord "q" c8Result 7 :=
  (((c8_audit_non_interference [] [] [] 5 "m"
      (fun _ _ => .ok { text := "ans", input_tokens := 1, output_tokens := 1 })
      "q" 7 c8SinkFail c8SinkOk).2.1) c8Result
    (log_query c8SinkFail "q" c8Result 7) rfl).1

/-! Fixtures for C1: one indexed chunk whose cosine similarity to the query
is 0.51 — well below the 0.65 cutoff required by the specification. -/

/-- C1 (code bug): the code has no similarity cutoff at all — `retrieve`
passes a chunk of similarity 0.51 (below any configured cutoff, e.g. the
0.65 the specification names) downstream, and the pipeline returns the
model's confident text with a non-empty citation set instead of the
fallback sentence.  The repository's own evaluation material records this
("no minimum similarity threshold gate") as an identified failure. -/
theorem c1_confidence_gate_missing :
    (retrieve c1Texts [c1Meta] c1Scores 5).map (fun c => c.similarity) = [Rat.divInt 51 100] ∧
    ((retrieve c1Texts [c1Meta] c1Scores 5).all
      (fun c => decide (c.similarity < Rat.divInt 65 100))) = true ∧
    retrieve c1Texts [c1Meta] c1Scores 5 ≠ [] ∧
    ∃ r a, query c1Texts [c1Meta] c1Scores 5 "m" c1llm c1Sink
        "What is the current inflation rate in the United States?" 100 = .ok (r, a) ∧
      r.answer = "A confident answer synthesized from the low-relevance excerpt." ∧
      r.answer ≠ FALLBACK_MESSAGE ∧
      r.sources ≠ [] := by
  refine ⟨by decide, by decide, by decide, ?_⟩
  exact ⟨_, _, rfl, rfl, by decide, by decide⟩

/-! C6: chunker lemmas. -/

/-- Unfolding of one `_chunk_words` loop iteration. -/
theorem chunkWordsAux_succ (words : List String) (size overlap fuel start : Nat) :
    chunkWordsAux words size overlap (fuel + 1) start =
      if start < words.length then
        (if 80 < (joinWords ((words.drop start).take size)).length then
          joinWords ((words.drop start).take size) ::
            (if min (start + size) words.length = words.length then []
             else chunkWordsAux words size overlap fuel (start + (size - overlap)))
         else
          (if min (start + size) words.length = words.length then []
           else chunkWordsAux words size overlap fuel (start + (size - overlap))))
      else [] := rfl

/-- Every chunk emitted from a loop whose `start` is a multiple of the
stride is the joined window of `size` words at a multiple of the stride,
of joined length above 80, starting inside the word list. -/
theorem chunkWordsAux_mem (words : List String) (size overlap : Nat) :
    ∀ (fuel start : Nat), (size - overlap) ∣ start →
      ∀ c ∈ chunkWordsAux words size overlap fuel start,
        ∃ i, i * (size - overlap) < words.length ∧
          c = joinWords ((words.drop (i * (size - overlap))).take size) ∧
          80 < c.length := by
  intro fuel
  induction fuel with
  | zero =>
    intro start _ c hc
    simp [chunkWordsAux] at hc
  | succ f ih =>
    intro start hdvd c hc
    rw [chunkWordsAux_succ] at hc
    by_cases hlt : start < words.length
    · rw [if_pos hlt] at hc
      obtain ⟨j, hj⟩ := hdvd
      have hrest : c ∈ (if min (start + size) words.length = words.length then []
          else chunkWordsAux words size overlap f (start + (size - overlap))) →
          ∃ i, i * (size - overlap) < words.length ∧
            c = joinWords ((words.drop (i * (size - overlap))).take size) ∧
            80 < c.length := by
        intro hcr
        by_cases hend : min (start + size) words.length = words.length
        · rw [if_pos hend] at hcr
          cases hcr
        · rw [if_neg hend] at hcr
          exact ih (start + (size - overlap)) ⟨j + 1, by rw [hj]; ring⟩ c hcr
      by_cases h80 : 80 < (joinWords ((words.drop start).take size)).length
      · rw [if_pos h80] at hc
        rcases List.mem_cons.mp hc with rfl | hc2
        · refine ⟨j, ?_, ?_, h80⟩
          · rw [Nat.mul_comm, ← hj]
            exact hlt
          · rw [Nat.mul_comm, ← hj]
        · exact hrest hc2
      · rw [if_neg h80] at hc
        exact hrest hc
    · rw [if_neg hlt] at hc
      cases hc

/-- Every chunk of `_chunk_words` is a word window of `size` words starting
at a multiple of the stride `size - overlap` (the last window may be
shorter), of joined character length above 80. -/
theorem chunk_words_mem (text : String) (size overlap : Nat) (c : String)
    (hc : c ∈ chunk_words text size overlap) :
    ∃ i, i * (size - overlap) < (pySplit text).length ∧
      c = joinWords (((pySplit text).drop (i * (size - overlap))).take size) ∧
      80 < c.length :=
  chunkWordsAux_mem (pySplit text) size overlap ((pySplit text).length + 1) 0
    (dvd_zero _) c hc

/-- Every chunk of `load_pdf` comes from a single page: its `page` field
names the page whose cleaned text it was cut from. -/
theorem load_pdf_mem (filename : String) (pages : List String) (ch : DocumentChunk)
    (h : ch ∈ load_pdf filename pages) :
    ∃ raw, pages.get? (ch.page - 1) = some raw ∧ ch.doc_type = "pdf" ∧ 1 ≤ ch.page ∧
      ch.text ∈ chunk_words (clean raw) := by
  unfold load_pdf at h
  simp only [List.mem_flatten, List.mem_map] at h
  obtain ⟨l, ⟨pg, hpg, hl⟩, hch⟩ := h
  rw [← hl] at hch
  by_cases hcl : clean pg.2 = ""
  · rw [if_pos hcl] at hch
    cases hch
  · rw [if_neg hcl] at hch
    simp only [List.mem_map] at hch
    obtain ⟨ct, hct, hce⟩ := hch
    rw [← hce]
    refine ⟨pg.2, ?_, rfl, Nat.le_add_left 1 pg.1, ?_⟩
    · have hp := List.mem_enum_iff_getElem?.mp hpg
      simpa [List.get?_eq_getElem?] using hp
    · have ht := List.mem_enum_iff_getElem?.mp hct
      exact List.get?_mem (by simpa [List.get?_eq_getElem?] using ht)

/-- One loop iteration always emits its own window when that window passes
the viability threshold. -/
theorem chunkWordsAux_head_mem (words : List String) (size overlap fuel start : Nat)
    (hlt : start < words.length)
    (h80 : 80 < (joinWords ((words.drop start).take size)).length) :
    joinWords ((words.drop start).take size) ∈
      chunkWordsAux words size overlap (fuel + 1) start := by
  rw [chunkWordsAux_succ, if_pos hlt, if_pos h80]
  exact List.mem_cons_self _ _

/-- When the loop continues past `start`, everything the continuation emits
is emitted. -/
theorem chunkWordsAux_rest_subset (words : List String) (size overlap fuel start : Nat)
    (hlt : start < words.length)
    (hend : ¬ min (start + size) words.length = words.length)
    {c : String} (hc : c ∈ chunkWordsAux words size overlap fuel (start + (size - overlap))) :
    c ∈ chunkWordsAux words size overlap (fuel + 1) start := by
  rw [chunkWordsAux_succ, if_pos hlt]
  by_cases h80 : 80 < (joinWords ((words.drop start).take size)).length
  · rw [if_pos h80]
    refine List.mem_cons_of_mem _ ?_
    rw [if_neg hend]
    exact hc
  · rw [if_neg h80, if_neg hend]
    exact hc

/-- Completeness of the `_chunk_words` loop: the window at the `i`-th stride
step from `start` is emitted whenever the loop actually reaches it (every
earlier window ended strictly before the last word) and it passes the
threshold, provided the fuel covers `i + 1` iterations. -/
theorem chunkWordsAux_complete (words : List String) (size overlap : Nat) :
    ∀ (i fuel start : Nat), i + 1 ≤ fuel →
      (∀ j < i, start + j * (size - overlap) + size < words.length) →
      start + i * (size - overlap) < words.length →
      80 < (joinWords ((words.drop (start + i * (size - overlap))).take size)).length →
      joinWords ((words.drop (start + i * (size - overlap))).take size) ∈
        chunkWordsAux words size overlap fuel start := by
  intro i
  induction i with
  | zero =>
    intro fuel start hfuel hprev hlt h80
    obtain ⟨f, rfl⟩ : ∃ f, fuel = f + 1 := ⟨fuel - 1, by omega⟩
    simpa using chunkWordsAux_head_mem words size overlap f start
      (by simpa using hlt) (by simpa using h80)
  | succ i ih =>
    intro fuel start hfuel hprev hlt h80
    obtain ⟨f, rfl⟩ : ∃ f, fuel = f + 1 := ⟨fuel - 1, by omega⟩
    have h0 : start + size < words.length := by
      have := hprev 0 (Nat.succ_pos i)
      simpa using this
    have hlt0 : start < words.length := by omega
    have hend : ¬ min (start + size) words.length = words.length := by omega
    have heq : start + (i + 1) * (size - overlap) =
        start + (size - overlap) + i * (size - overlap) := by
      rw [Nat.succ_mul]
      omega
    rw [heq] at hlt h80 ⊢
    refine chunkWordsAux_rest_subset words size overlap f start hlt0 hend ?_
    refine ih f (start + (size - overlap)) (by omega) ?_ hlt h80
    intro j hj
    have := hprev (j + 1) (by omega)
    rw [Nat.succ_mul] at this
    omega

/-- Completeness of `_chunk_words`: for `overlap < size` (the only regime in
which the Python loop terminates), the window at stride step `i` is in the
output whenever the loop reaches it and its joined length exceeds 80. -/
theorem chunk_words_complete (text : String) (size overlap i : Nat)
    (hso : overlap < size)
    (hi : i * (size - overlap) < (pySplit text).length)
    (hprev : i = 0 ∨ (i - 1) * (size - overlap) + size < (pySplit text).length)
    (h80 : 80 < (joinWords (((pySplit text).drop (i * (size - overlap))).take size)).length) :
    joinWords (((pySplit text).drop (i * (size - overlap))).take size) ∈
      chunk_words text size overlap := by
  have hs : 1 ≤ size - overlap := by omega
  have hle : i * 1 ≤ i * (size - overlap) := Nat.mul_le_mul_left i hs
  rw [Nat.mul_one] at hle
  have hfuel : i + 1 ≤ (pySplit text).length + 1 := by omega
  have hprev' : ∀ j < i, 0 + j * (size - overlap) + size < (pySplit text).length := by
    intro j hj
    rcases hprev with h0 | hlast
    · omega
    · have hmono : j * (size - overlap) ≤ (i - 1) * (size - overlap) :=
        Nat.mul_le_mul_right _ (by omega)
      omega
  have hmem := chunkWordsAux_complete (pySplit text) size overlap i
    ((pySplit text).length + 1) 0 hfuel hprev' (by simpa using hi) (by simpa using h80)
  simpa [chunk_words] using hmem

/-- C6: (a) every `_chunk_words` chunk is a word window of `size` words
starting at a multiple of the stride `size − overlap`, kept only when its
joined character length exceeds the 80-character viability threshold (the
last window may be shorter than `size`); (b) conversely, when
`overlap < size`, every window the loop reaches whose joined length exceeds
the threshold is emitted — only below-threshold windows are discarded;
(c) every `load_pdf` chunk is cut from the normalized (`_clean`-ed) text of
the single page recorded in its `page` field — pages are chunked
independently and no chunk spans a page boundary. -/
theorem c6_chunker_paginated :
    (∀ (size overlap : Nat) (text : String) (c : String),
      c ∈ chunk_words text size overlap →
      ∃ i, i * (size - overlap) < (pySplit text).length ∧
        c = joinWords (((pySplit text).drop (i * (size - overlap))).take size) ∧
        80 < c.length) ∧
    (∀ (size overlap : Nat) (text : String) (i : Nat),
      overlap < size →
      i * (size - overlap) < (pySplit text).length →
      (i = 0 ∨ (i - 1) * (size - overlap) + size < (pySplit text).length) →
      80 < (joinWords (((pySplit text).drop (i * (size - overlap))).take size)).length →
      joinWords (((pySplit text).drop (i * (size - overlap))).take size) ∈
        chunk_words text size overlap) ∧
    (∀ (filename : String) (pages : List String) (ch : DocumentChunk),
      ch ∈ load_pdf filename pages →
      ∃ raw, pages.get? (ch.page - 1) = some raw ∧ ch.doc_type = "pdf" ∧ 1 ≤ ch.page ∧
        ch.text ∈ chunk_words (clean raw)) :=
  ⟨fun size overlap text c hc => chunk_words_mem text size overlap c hc,
   fun size overlap text i hso hi hprev h80 =>
     chunk_words_complete text size overlap i hso hi hprev h80,
   fun filename pages ch h => load_pdf_mem filename pages ch h⟩

/-- Witness for C6 at a concrete one-page text. -/
theorem c6_chunker_paginated_witness : 80 < c6Text.length := by
  obtain ⟨i, h1, h2, h3⟩ := c6_chunker_paginated.1 600 100 c6Text c6Text (by decide)
  exact h3

/-- C10: every chunk `load_pdf` emits has text strictly longer than 80
characters, and every chunk `load_csv` emits has text strictly longer than
40 characters — the viability threshold differs by document kind. -/
theorem c10_min_length_by_kind :
    (∀ (filename : String) (pages : List String) (ch : DocumentChunk),
      ch ∈ load_pdf filename pages → 80 < ch.text.length) ∧
    (∀ (filename : String) (rows : List CsvRow) (ch : DocumentChunk),
      ch ∈ load_csv filename rows → 40 < ch.text.length) := by
  constructor
  · intro filename pages ch h
    obtain ⟨raw, _, _, _, htext⟩ := load_pdf_mem filename pages ch h
    obtain ⟨i, _, _, hlen⟩ := chunk_words_mem (clean raw) CHUNK_SIZE CHUNK_OVERLAP ch.text htext
    exact hlen
  · intro filename rows ch h
    unfold load_csv at h
    simp only [List.mem_filterMap] at h
    obtain ⟨p, hp, hsome⟩ := h
    by_cases h40 : 40 < (rowText p.2).length
    · rw [if_pos h40] at hsome
      simp only [Option.some.injEq] at hsome
      rw [← hsome]
      exact h40
    · rw [if_neg h40] at hsome
      cases hsome

/-- Witness for C10 at concrete PDF and CSV corpora. -/
theorem c10_min_length_by_kind_witness :
    80 < c10PdfChunk.text.length ∧ 40 < c10Chunk.text.length :=
  ⟨c10_min_length_by_kind.1 "f.pdf" [c6Text] c10PdfChunk (by decide),
   c10_min_length_by_kind.2 "fas.csv" [c10Row] c10Chunk (by decide)⟩

end BNR
